import Mathlib

/-!
Verification development for the e-commerce review analysis backend.

Shallow embedding of the scraping job lifecycle (`app/routers/scraping.py`),
the fake-review scoring stage (`app/services/analysis/fake_detection.py`),
the sentiment stage (`app/services/analysis/sentiment.py`), the insights
stage (`app/services/analysis/insights.py`), the two platform scrapers
(`app/services/scraper/amazon.py`, `app/services/scraper/flipkart.py`) and
the analysis cache router (`app/routers/analysis.py`).

Modelling conventions: Python floats are modelled as exact rationals (ℚ);
character classes (`isupper`, `\s`, `\w`, `str.lower`) are modelled over
ASCII, matching the data these functions see; datetimes are modelled as
integer seconds; network fetches and the transformer pipeline are modelled
as oracle functions supplied as parameters; `while` loops are modelled as
fuel-indexed step recursion, with every theorem quantified over the fuel.
-/

namespace App

/-! ## Job lifecycle — `app/routers/scraping.py` -/

/-- `JobStatus` enum from `app/schemas/scraping.py`. -/
inductive JobStatus where
  | pending
  | running
  | completed
  | failed
  | cancelled
deriving DecidableEq, Repr

/-- The in-memory job record stored in `scrape_jobs[job_id]`
(`start_scraping`, lines 74-84).  Datetime fields are modelled as booleans
recording whether they have been set. -/
structure ScrapeJob where
  status : JobStatus
  product_id : Option Nat
  progress : Nat
  reviews_scraped : Nat
  message : String
  hasStartedAt : Bool
  hasCompletedAt : Bool
  error : Option String
deriving DecidableEq, Repr

/-- The fresh record inserted by `start_scraping` (lines 74-84). -/
def createJob (platform : String) : ScrapeJob :=
  { status := JobStatus.pending
    product_id := none
    progress := 0
    reviews_scraped := 0
    message := "Scraping " ++ platform ++ " product..."
    hasStartedAt := false
    hasCompletedAt := false
    error := none }

/-- First half of `run_scrape_job` (lines 31-32): unconditionally sets
RUNNING and stamps `started_at`. -/
def driverStart (j : ScrapeJob) : ScrapeJob :=
  { j with status := JobStatus.running, hasStartedAt := true }

/-- Success tail of `run_scrape_job` (lines 41-46): unconditionally sets
COMPLETED and records the scrape results.  There is no check of the
current status before the write. -/
def driverComplete (pid reviewsCount : Nat) (j : ScrapeJob) : ScrapeJob :=
  { j with status := JobStatus.completed
           product_id := some pid
           reviews_scraped := reviewsCount
           progress := 100
           hasCompletedAt := true
           message := "Successfully scraped " ++ toString reviewsCount ++ " reviews" }

/-- Exception tail of `run_scrape_job` (lines 48-51): unconditionally sets
FAILED and records the error. -/
def driverFail (err : String) (j : ScrapeJob) : ScrapeJob :=
  { j with status := JobStatus.failed
           error := some err
           hasCompletedAt := true }

/-- `cancel_scrape` (lines 101-115).  Raising `HTTPException` is modelled
as `Except.error`; on the error path the stored record is untouched.  Note
the guard rejects only COMPLETED and FAILED — CANCELLED is not in the
list. -/
def cancel_scrape (j : ScrapeJob) : Except String ScrapeJob :=
  if j.status = JobStatus.completed ∨ j.status = JobStatus.failed then
    Except.error "Job already finished"
  else
    Except.ok { j with status := JobStatus.cancelled
                       hasCompletedAt := true
                       message := "Job cancelled by user" }

/-- The events that mutate one job record: the background driver's two
steps (start, then one finish outcome) and cancellation requests from the
router.  A rejected cancellation leaves the record unchanged. -/
inductive JobEvent where
  | start
  | finishOk (pid reviewsCount : Nat)
  | finishErr (err : String)
  | cancel
deriving DecidableEq, Repr

/-- Apply one event to the stored record. -/
def applyEvent (j : ScrapeJob) : JobEvent → ScrapeJob
  | JobEvent.start => driverStart j
  | JobEvent.finishOk pid c => driverComplete pid c j
  | JobEvent.finishErr e => driverFail e j
  | JobEvent.cancel =>
      match cancel_scrape j with
      | Except.ok j' => j'
      | Except.error _ => j

/-- Replay a sequence of events over a job record. -/
def runEvents (j : ScrapeJob) (es : List JobEvent) : ScrapeJob :=
  es.foldl applyEvent j

/-- `n` cancellation requests in a row. -/
def cancels (n : Nat) : List JobEvent :=
  List.replicate n JobEvent.cancel

/-! ## String helpers for the Python primitives used by the analysis code -/

/-- Python's `str.split()` / `\s` whitespace class, restricted to ASCII:
space, tab, newline, carriage return, vertical tab, form feed. -/
def pyIsSpace (c : Char) : Bool :=
  c = ' ' || c = '\t' || c = '\n' || c = '\r' || c = '\x0b' || c = '\x0c'

/-- One-pass splitter on whitespace runs over a character list, with the
current word accumulated in reverse in `acc`. -/
def pyWordsAux : List Char → List Char → List (List Char)
  | [], [] => []
  | [], a :: acc => [(a :: acc).reverse]
  | c :: cs, acc =>
      if pyIsSpace c then
        match acc with
        | [] => pyWordsAux cs []
        | a :: as' => (a :: as').reverse :: pyWordsAux cs []
      else pyWordsAux cs (c :: acc)

/-- Python `text.split()`: split on whitespace runs, dropping empties. -/
def pySplitWs (s : String) : List String :=
  (pyWordsAux s.data []).map fun w => String.mk w

/-- Python `text.lower()` (ASCII). -/
def pyLower (s : String) : String :=
  String.mk (s.data.map Char.toLower)

/-- Python slice `text[:n]` (by code point). -/
def pyTake (s : String) (n : Nat) : String :=
  String.mk (s.data.take n)

/-- Python `text.strip()` (ASCII whitespace). -/
def pyStrip (s : String) : String :=
  String.mk (((s.data.dropWhile pyIsSpace).reverse.dropWhile pyIsSpace).reverse)

/-- Does the character list start with `pat`? -/
def listStartsWith : List Char → List Char → Bool
  | _, [] => true
  | [], _ :: _ => false
  | c :: cs, p :: ps => c = p && listStartsWith cs ps

/-- Does the haystack contain `pat` as a contiguous run? -/
def containsSub (pat : List Char) : List Char → Bool
  | [] => listStartsWith [] pat
  | c :: cs => listStartsWith (c :: cs) pat || containsSub pat cs

/-- Python substring test `pat in s`. -/
def containsStr (s pat : String) : Bool :=
  containsSub pat.data s.data

/-- Python regex `\w` (ASCII): letters, digits, underscore. -/
def isWordChar (c : Char) : Bool :=
  c.isAlphanum || c = '_'

/-- Separator class `[-.\s]` of the phone-number pattern. -/
def isSepChar (c : Char) : Bool :=
  c = '-' || c = '.' || pyIsSpace c

/-- Consume exactly `n` ASCII digits (`\d{n}`). -/
def takeDigits : Nat → List Char → Option (List Char)
  | 0, cs => some cs
  | _ + 1, [] => none
  | n + 1, c :: cs => if c.isDigit then takeDigits n cs else none

/-- The rests reachable after the optional separator `[-.\s]?`
(both backtracking branches). -/
def afterOptSep : List Char → List (List Char)
  | [] => [[]]
  | c :: cs => if isSepChar c then [c :: cs, cs] else [c :: cs]

/-- Match of `\d{10}|\d{3}[-.\s]?\d{3}[-.\s]?\d{4}` anchored at the head of
`cs`; the ten-digit alternative is subsumed by the separator-free branch of
the second alternative. -/
def phoneAt (cs : List Char) : Bool :=
  match takeDigits 3 cs with
  | none => false
  | some r1 =>
      (afterOptSep r1).any fun r2 =>
        match takeDigits 3 r2 with
        | none => false
        | some r3 => (afterOptSep r3).any fun r4 => (takeDigits 4 r4).isSome

/-- `re.search` driver: does `p` hold at some suffix? -/
def anyTail (p : List Char → Bool) : List Char → Bool
  | [] => p []
  | c :: cs => p (c :: cs) || anyTail p cs

/-- `re.search(r'(\d{10}|\d{3}[-.\s]?\d{3}[-.\s]?\d{4})', s)`. -/
def phoneSearch (s : String) : Bool :=
  anyTail phoneAt s.data

/-- Consume the literal `lit` at the head of `cs`. -/
def dropLit : List Char → List Char → Option (List Char)
  | cs, [] => some cs
  | [], _ :: _ => none
  | c :: cs, l :: ls => if c = l then dropLit cs ls else none

/-- Consume `\s+` (greedy; what follows in the pattern is a letter, so
greediness is exact here). -/
def dropWs1 : List Char → Option (List Char)
  | [] => none
  | c :: rest => if pyIsSpace c then some (rest.dropWhile pyIsSpace) else none

/-- Match of `\b(seller|shop|store)\s+(is|was)\s+(great|best|good)\b`
anchored at the head of `cs`, with `prev` the character before the match
position (for the left word boundary). -/
def sellerPraiseAt (prev : Option Char) (cs : List Char) : Bool :=
  (match prev with | none => true | some c => !isWordChar c) &&
  (["seller", "shop", "store"].any fun w =>
    match dropLit cs w.data with
    | none => false
    | some r1 =>
        match dropWs1 r1 with
        | none => false
        | some r2 =>
            ["is", "was"].any fun v =>
              match dropLit r2 v.data with
              | none => false
              | some r3 =>
                  match dropWs1 r3 with
                  | none => false
                  | some r4 =>
                      ["great", "best", "good"].any fun g =>
                        match dropLit r4 g.data with
                        | none => false
                        | some r5 =>
                            match r5 with
                            | [] => true
                            | c :: _ => !isWordChar c)

/-- `re.search` driver that tracks the previous character. -/
def anyTailPrev (p : Option Char → List Char → Bool) : Option Char → List Char → Bool
  | prev, [] => p prev []
  | prev, c :: cs => p prev (c :: cs) || anyTailPrev p (some c) cs

/-- `re.search(r'\b(seller|shop|store)\s+(is|was)\s+(great|best|good)\b', s)`. -/
def sellerPraiseSearch (s : String) : Bool :=
  anyTailPrev sellerPraiseAt none s.data

/-- `re.search(r'http[s]?://', s)`: a `http://` or `https://` substring. -/
def urlSearch (s : String) : Bool :=
  containsStr s "http://" || containsStr s "https://"

/-! ## Fake-review detection — `app/services/analysis/fake_detection.py` -/

/-- The persisted `Review` row fields read and written by the analysis
stages (`app/models/review.py`).  Confidence scores are exact rationals. -/
structure Review where
  review_text : String
  rating : Int
  verified_purchase : Bool
  sentiment_label : Option String := none
  sentiment_score : Option ℚ := none
  is_suspicious : Bool := false
  suspicious_score : Nat := 0
deriving DecidableEq, Repr

/-- `GENERIC_PHRASES` (lines 13-18). -/
def GENERIC_PHRASES : List String :=
  ["good product", "nice product", "best product", "worst product",
   "highly recommend", "do not buy", "waste of money", "value for money",
   "must buy", "don't buy", "excellent", "terrible", "amazing", "horrible",
   "five stars", "one star", "5 stars", "1 star"]

/-- Count of uppercase characters (`c.isupper()`, ASCII). -/
def upperCount (s : String) : Nat :=
  (s.data.filter Char.isUpper).length

/-- `calculate_suspicious_score` (lines 21-72): additive heuristics over
the lowercased text, clamped by `min(100, score)`.  Every addend is
non-negative, so the score is a `Nat`. -/
def calculate_suspicious_score (review : Review) : Nat :=
  let text := pyLower review.review_text
  let wordCount := (pySplitWs text).length
  let s1 : Nat :=
    if wordCount < 10 ∧ (review.rating = 1 ∨ review.rating = 5) then 30
    else if wordCount < 20 ∧ (review.rating = 1 ∨ review.rating = 5) then 15
    else 0
  let s2 : Nat := if review.verified_purchase then 0 else 25
  let genericCount := (GENERIC_PHRASES.filter fun p => containsStr text p).length
  let s3 : Nat := min 20 (genericCount * 5)
  let capsRatio : ℚ :=
    (upperCount review.review_text : ℚ) / (max review.review_text.length 1 : ℚ)
  let s4 : Nat := if 1 / 2 < capsRatio then 10 else 0
  let exclamationCount := (review.review_text.data.filter fun c => c = '!').length
  let s5 : Nat := if 3 < exclamationCount then 5 else 0
  let s6 : Nat := if wordCount < 5 then 10 else 0
  let s7 : Nat := if review.rating = 5 ∧ wordCount < 15 then 10 else 0
  let s8 : Nat :=
    if urlSearch text || sellerPraiseSearch text || phoneSearch text then 10 else 0
  min 100 (s1 + s2 + s3 + s4 + s5 + s6 + s7 + s8)

/-- Per-review update performed by `detect_fake_reviews` (lines 97-100):
`review.suspicious_score = score; review.is_suspicious = score >= 50`. -/
def applyFakeDetection (r : Review) : Review :=
  let score := calculate_suspicious_score r
  { r with suspicious_score := score, is_suspicious := decide (50 ≤ score) }

/-- The spec's example review: text `"bad"`, unverified, rating 1. -/
def badReview : Review :=
  { review_text := "bad", rating := 1, verified_purchase := false }

/-- Division-free companion of `calculate_suspicious_score`: the caps-ratio
test `u / max(len,1) > 1/2` is replaced by the integer test
`max(len,1) < 2 * u`.  Used only through
`calculate_suspicious_score_eq`, which proves the two agree. -/
def suspiciousScoreNat (review : Review) : Nat :=
  let text := pyLower review.review_text
  let wordCount := (pySplitWs text).length
  let s1 : Nat :=
    if wordCount < 10 ∧ (review.rating = 1 ∨ review.rating = 5) then 30
    else if wordCount < 20 ∧ (review.rating = 1 ∨ review.rating = 5) then 15
    else 0
  let s2 : Nat := if review.verified_purchase then 0 else 25
  let genericCount := (GENERIC_PHRASES.filter fun p => containsStr text p).length
  let s3 : Nat := min 20 (genericCount * 5)
  let s4 : Nat :=
    if max review.review_text.length 1 < 2 * upperCount review.review_text then 10 else 0
  let exclamationCount := (review.review_text.data.filter fun c => c = '!').length
  let s5 : Nat := if 3 < exclamationCount then 5 else 0
  let s6 : Nat := if wordCount < 5 then 10 else 0
  let s7 : Nat := if review.rating = 5 ∧ wordCount < 15 then 10 else 0
  let s8 : Nat :=
    if urlSearch text || sellerPraiseSearch text || phoneSearch text then 10 else 0
  min 100 (s1 + s2 + s3 + s4 + s5 + s6 + s7 + s8)

/-! ## Sentiment stage — `app/services/analysis/sentiment.py`

The transformer pipeline is modelled as an oracle: `none` models a raised
exception (caught by the code), `some (label, score)` the classifier's raw
result dict. -/

/-- Label mapping applied to the pipeline's raw result (lines 50-59 and
85-94): lowercase the label, then map `positive`-containing labels or
`label_1` to `positive`, `negative`-containing labels or `label_0` to
`negative`, anything else to `neutral`; the score passes through. -/
def mapLabel (labelRaw : String) (score : ℚ) : String × ℚ :=
  let label := pyLower labelRaw
  if containsStr label "positive" || label = "label_1" then ("positive", score)
  else if containsStr label "negative" || label = "label_0" then ("negative", score)
  else ("neutral", score)

/-- `analyze_text` (lines 33-63): empty or near-empty text short-circuits
to `("neutral", 0.5)`; otherwise the text is truncated to 512 characters
and classified, with a pipeline exception also yielding
`("neutral", 0.5)`. -/
def analyze_text (pipe : String → Option (String × ℚ)) (text : String) : String × ℚ :=
  if text = "" || (pyStrip text).length < 3 then ("neutral", 1 / 2)
  else
    match pipe (pyTake text 512) with
    | none => ("neutral", 1 / 2)
    | some r => mapLabel r.1 r.2

/-- The batches visited by `for i in range(0, len(texts), batch_size)`. -/
def chunksOfAux {α : Type} (n : Nat) : Nat → List α → List (List α)
  | 0, _ => []
  | _, [] => []
  | fuel + 1, l => l.take n :: chunksOfAux n fuel (l.drop n)

/-- Split a list into consecutive chunks of size `n`. -/
def chunksOf {α : Type} (n : Nat) (l : List α) : List (List α) :=
  chunksOfAux n l.length l

/-- `analyze_texts_batch` (lines 66-101): process the texts in batches;
each batch replaces falsy texts by `""`, truncates to 512 characters, and
is sent to the pipeline — there is no empty-text short-circuit on this
path.  A batch-level pipeline exception fills that batch with
`("neutral", 0.5)`. -/
def analyze_texts_batch (pipe : List String → Option (List (String × ℚ)))
    (texts : List String) (batchSize : Nat) : List (String × ℚ) :=
  (chunksOf batchSize texts).foldl
    (fun results batch0 =>
      let batch := batch0.map fun t => if t = "" then "" else pyTake t 512
      match pipe batch with
      | some rs => results ++ rs.map fun r => mapLabel r.1 r.2
      | none => results ++ List.replicate batch.length ("neutral", (1 : ℚ) / 2))
    []

/-! ## Insights stage — `app/services/analysis/insights.py` -/

/-- `sentiment_dist.get(lab, 0)`: reviews whose `sentiment_label` equals
`lab` (lines 52, 70-71). -/
def labeledCount (reviews : List Review) (lab : String) : Nat :=
  (reviews.filter fun r => r.sentiment_label = some lab).length

/-- `total_analyzed` (line 53): reviews with a non-null sentiment label. -/
def totalAnalyzed (reviews : List Review) : Nat :=
  (reviews.filter fun r => r.sentiment_label.isSome).length

/-- `avg_rating` (line 65). -/
def insightsAvgRating (reviews : List Review) : ℚ :=
  (((reviews.map fun r => r.rating).sum : Int) : ℚ) / (reviews.length : ℚ)

/-- `overall_score` of `generate_product_insights` (lines 64-75): the
sentiment component is computed from the *counts* of positive / negative
labels (`positive_ratio - negative_ratio`), defaulting to 50 when no
review is labeled, and is combined as `0.6 × sentiment + 0.4 × rating`.
The final 2-decimal rounding of line 113 is not modelled. -/
def insightsOverallScore (reviews : List Review) : ℚ :=
  let avg_rating := insightsAvgRating reviews
  let rating_score := avg_rating / 5 * 100
  let ta := totalAnalyzed reviews
  let sentiment_score : ℚ :=
    if 0 < ta then
      let positive_ratio : ℚ := (labeledCount reviews "positive" : ℚ) / (ta : ℚ)
      let negative_ratio : ℚ := (labeledCount reviews "negative" : ℚ) / (ta : ℚ)
      (positive_ratio - negative_ratio + 1) / 2 * 100
    else 50
  sentiment_score * (6 / 10) + rating_score * (4 / 10)

/-- The overall score as claim C7 states it: the sentiment component uses
the sentiment stage's *signed-confidence* formula
`((Σ ±confidence)/N + 1)/2 × 100` (as in `analyze_product_sentiment`,
lines 139-167), not label counts.  This definition follows the claim's
words and is compared against `insightsOverallScore`, which follows the
code. -/
def claimedOverallScore (reviews : List Review) : ℚ :=
  let signed : Review → ℚ := fun r =>
    if r.sentiment_label = some "positive" then r.sentiment_score.getD 0
    else if r.sentiment_label = some "negative" then -(r.sentiment_score.getD 0)
    else 0
  let sentiment_component :=
    ((reviews.map signed).sum / (reviews.length : ℚ) + 1) / 2 * 100
  let rating_component := insightsAvgRating reviews / 5 * 100
  (6 / 10) * sentiment_component + (4 / 10) * rating_component

/-- A single positive review with confidence 0.6 and rating 5: the code's
count-based sentiment component is 100, the claim's confidence-based one
is 80. -/
def confidentReview : Review :=
  { review_text := "ok", rating := 5, verified_purchase := true,
    sentiment_label := some "positive", sentiment_score := some (3 / 5) }

/-! ## Platform scrapers — `app/services/scraper/amazon.py` and
`app/services/scraper/flipkart.py`

Network fetches are modelled as oracle functions indexed by a fetch
counter, so a retried page may return a different result.  The pagination
`while` loops are modelled as fuel-indexed recursion; theorems are
quantified over the fuel.  Randomized delays, header rotation and session
replacement change no state the claims mention and are not modelled. -/

/-- A raw review as returned by `_parse_review` /
`_parse_review_from_strings` (the fields relevant to the loops). -/
structure RawReview where
  text : String
  rating : Int
  verified : Bool
  helpful_count : Nat
deriving DecidableEq, Repr

/-- What the Amazon loop observes from a parsed HTTP 200 body: a CAPTCHA
marker, a block phrase ("Something went wrong" / "Serve Protection"), and
the review divs, each parsing to `some` review or `none`. -/
structure AmazonContent where
  captcha : Bool
  wentWrong : Bool
  divs : List (Option RawReview)
deriving Repr

/-- Outcome of one Amazon fetch: a response with a status code and parsed
content, or a transport exception (caught by the loop's `except`). -/
inductive AmazonFetch where
  | response (code : Nat) (content : AmazonContent)
  | exn
deriving Repr

/-- Outcome of one Flipkart fetch: `_extract_reviews_from_soup` already
drops unparseable containers, so a 200 response carries a review list. -/
inductive FlipkartFetch where
  | response (code : Nat) (pageReviews : List RawReview)
  | exn
deriving Repr

/-- The mutable locals of both `scrape_reviews` loops, plus
instrumentation: `fetchCount` indexes the oracle, `fetchedPages` records
the page index of every attempted fetch, `finished` records a `break`. -/
structure ScrapeState where
  reviews : List RawReview
  page : Nat
  consecutiveEmpty : Nat
  consecutiveErrors : Nat
  fetchCount : Nat
  fetchedPages : List Nat
  finished : Bool
deriving Repr

/-- `reviews = []; page = 1; consecutive_empty = 0; consecutive_errors = 0`. -/
def initState : ScrapeState :=
  { reviews := [], page := 1, consecutiveEmpty := 0, consecutiveErrors := 0,
    fetchCount := 0, fetchedPages := [], finished := false }

/-- One step of the per-page append loop shared by both scrapers (amazon
lines 284-295, flipkart lines 260-265): stop once
`len(reviews) >= max_reviews` (the `break` is modelled by making later
steps no-ops, which the length check guarantees), skip unparsed divs, and
append only reviews whose exact text is not already present. -/
def appendStep (maxReviews : Nat) (acc : List RawReview)
    (d : Option RawReview) : List RawReview :=
  if maxReviews ≤ acc.length then acc
  else
    match d with
    | none => acc
    | some r => if acc.any fun x => x.text = r.text then acc else acc ++ [r]

/-- The whole per-page append loop: fold `appendStep` over the divs. -/
def appendFresh (maxReviews : Nat) (reviews : List RawReview)
    (divs : List (Option RawReview)) : List RawReview :=
  divs.foldl (appendStep maxReviews) reviews

/-- One iteration of the Amazon `while` loop (lines 187-302), invoked only
when the loop guard holds.  The fallback product-page fetch of lines
257-273 is modelled by a second oracle (`none` = non-200 or exception);
the `fallback_url != url` test is always true for review-page URLs. -/
def amazonStep (fetches : Nat → AmazonFetch)
    (fallbackDivs : Nat → Option (List (Option RawReview)))
    (maxReviews : Nat) (s : ScrapeState) : ScrapeState :=
  let s0 := { s with fetchedPages := s.fetchedPages ++ [s.page],
                     fetchCount := s.fetchCount + 1 }
  match fetches s.fetchCount with
  | AmazonFetch.exn =>
      { s0 with consecutiveErrors := s.consecutiveErrors + 1 }
  | AmazonFetch.response code content =>
      if code ≠ 200 then
        if code = 503 ∨ code = 403 ∨ code = 429 then
          { s0 with consecutiveErrors := s.consecutiveErrors + 1 }
        else
          { s0 with consecutiveErrors := s.consecutiveErrors + 1, page := s.page + 1 }
      else if content.captcha then
        { s0 with finished := true }
      else if content.wentWrong then
        { s0 with consecutiveErrors := s.consecutiveErrors + 1 }
      else
        let effDivs :=
          if content.divs.isEmpty ∧ s.page = 1 ∧ s.consecutiveErrors = 0 then
            (fallbackDivs s.fetchCount).getD []
          else content.divs
        if effDivs.isEmpty then
          { s0 with consecutiveEmpty := s.consecutiveEmpty + 1, page := s.page + 1 }
        else
          { s0 with reviews := appendFresh maxReviews s.reviews effDivs,
                    consecutiveEmpty := 0, consecutiveErrors := 0, page := s.page + 1 }

/-- The Amazon `while len(reviews) < max_reviews and consecutive_empty < 3
and consecutive_errors < 5` loop (line 187) — note: no page ceiling. -/
def amazonRun (fetches : Nat → AmazonFetch)
    (fallbackDivs : Nat → Option (List (Option RawReview)))
    (maxReviews : Nat) : Nat → ScrapeState → ScrapeState
  | 0, s => s
  | fuel + 1, s =>
      if s.finished then s
      else if s.reviews.length < maxReviews ∧ s.consecutiveEmpty < 3 ∧
          s.consecutiveErrors < 5 then
        amazonRun fetches fallbackDivs maxReviews fuel
          (amazonStep fetches fallbackDivs maxReviews s)
      else s

/-- `AmazonScraper.scrape_reviews` from the initial state. -/
def amazonScrape (fetches : Nat → AmazonFetch)
    (fallbackDivs : Nat → Option (List (Option RawReview)))
    (maxReviews fuel : Nat) : ScrapeState :=
  amazonRun fetches fallbackDivs maxReviews fuel initState

/-- `max_pages = 25` (flipkart line 211). -/
def flipkartMaxPages : Nat := 25

/-- One iteration of the Flipkart `while` loop (lines 225-279): the page
ceiling is checked first (`if page > max_pages: break`), before any
fetch. -/
def flipkartStep (fetches : Nat → FlipkartFetch) (maxReviews : Nat)
    (s : ScrapeState) : ScrapeState :=
  if flipkartMaxPages < s.page then { s with finished := true }
  else
    let s0 := { s with fetchedPages := s.fetchedPages ++ [s.page],
                       fetchCount := s.fetchCount + 1 }
    match fetches s.fetchCount with
    | FlipkartFetch.exn =>
        { s0 with consecutiveErrors := s.consecutiveErrors + 1 }
    | FlipkartFetch.response code rs =>
        if code ≠ 200 then
          { s0 with consecutiveErrors := s.consecutiveErrors + 1, page := s.page + 1 }
        else if rs.isEmpty then
          { s0 with consecutiveEmpty := s.consecutiveEmpty + 1, page := s.page + 1 }
        else
          { s0 with reviews := appendFresh maxReviews s.reviews (rs.map some),
                    consecutiveEmpty := 0, consecutiveErrors := 0, page := s.page + 1 }

/-- The Flipkart `while` loop with the same guard as Amazon's. -/
def flipkartRun (fetches : Nat → FlipkartFetch) (maxReviews : Nat) :
    Nat → ScrapeState → ScrapeState
  | 0, s => s
  | fuel + 1, s =>
      if s.finished then s
      else if s.reviews.length < maxReviews ∧ s.consecutiveEmpty < 3 ∧
          s.consecutiveErrors < 5 then
        flipkartRun fetches maxReviews fuel (flipkartStep fetches maxReviews s)
      else s

/-- `FlipkartScraper.scrape_reviews` from the initial state.  The
search-URL resolution preamble (lines 215-223) only rewrites the product
URL or returns `[]` before the loop; `[]` satisfies every property proved
here trivially, so the preamble is not modelled. -/
def flipkartScrape (fetches : Nat → FlipkartFetch) (maxReviews fuel : Nat) :
    ScrapeState :=
  flipkartRun fetches maxReviews fuel initState

/-- Oracle for the C5 counterexample: every fetch returns HTTP 200 with a
single fresh review (distinct text per fetch). -/
def alwaysOnePage : Nat → AmazonFetch := fun k =>
  AmazonFetch.response 200
    { captcha := false, wentWrong := false,
      divs := [some { text := String.mk (List.replicate k 'a'), rating := 5,
                      verified := true, helpful_count := 0 }] }

/-! ## Analysis cache — `app/routers/analysis.py`

Stage payloads are opaque (`α`); datetimes are integer seconds.  The stage
runner is an oracle indexed by how many times a stage has run
(`runCount`), so successive runs may return different payloads; the call
counter also witnesses that a cache hit runs no stage (and hence does not
invoke the classifier). -/

/-- An `AnalysisCache` row (`app/models/analysis.py`). -/
structure CacheEntry (α : Type) where
  product_id : Nat
  analysis_type : String
  results : α
  created_at : Int
deriving Repr

/-- The database plus instrumentation: how often a stage has run. -/
structure AnalysisState (α : Type) where
  cache : List (CacheEntry α)
  runCount : Nat
deriving Repr

/-- Keep the newer of two candidates; on equal timestamps the later one
wins, modelling `ORDER BY created_at DESC` with later-inserted rows first
among ties (the tie order is unspecified by the database; this choice
matches "most recently created"). -/
def pickNewer {α : Type} (acc : Option (CacheEntry α)) (e : CacheEntry α) :
    Option (CacheEntry α) :=
  match acc with
  | none => some e
  | some b => if b.created_at ≤ e.created_at then some e else some b

/-- The `query ... order_by(created_at.desc()).first()` of
`get_cached_analysis` (lines 17-25). -/
def newestMatch {α : Type} (cache : List (CacheEntry α)) (pid : Nat)
    (typ : String) : Option (CacheEntry α) :=
  (cache.filter fun e => e.product_id = pid ∧ e.analysis_type = typ).foldl
    pickNewer none

/-- `get_cached_analysis` (lines 15-33): the newest matching entry's
payload if it is less than 24 hours (86400 seconds) old, else nothing. -/
def get_cached_analysis {α : Type} (cache : List (CacheEntry α)) (pid : Nat)
    (typ : String) (now : Int) : Option α :=
  match newestMatch cache pid typ with
  | none => none
  | some e => if now - e.created_at < 86400 then some e.results else none

/-- `save_analysis_cache` (lines 36-44): append a fresh entry stamped
`now`; entries are never updated in place. -/
def save_analysis_cache {α : Type} (st : AnalysisState α) (pid : Nat)
    (typ : String) (res : α) (now : Int) : AnalysisState α :=
  { st with cache := st.cache ++ [⟨pid, typ, res, now⟩] }

/-- Running the sentiment stage and caching its result (lines 66-70):
the oracle is consulted and the run counter incremented. -/
def runStage {α : Type} (stage : Nat → α) (pid : Nat) (now : Int)
    (st : AnalysisState α) : α × AnalysisState α :=
  let results := stage st.runCount
  (results,
   save_analysis_cache { st with runCount := st.runCount + 1 } pid "sentiment" results now)

/-- `get_sentiment_analysis` (lines 47-72): with `force_refresh` false, a
cache hit returns the cached payload and leaves all state unchanged;
otherwise the stage runs and its result is cached and returned.  The
aspects/topics/insights endpoints (lines 75-144) are identical in shape up
to the stage name and stage function, so this embedding stands for all
four. -/
def get_sentiment_analysis {α : Type} (stage : Nat → α) (pid : Nat)
    (force : Bool) (now : Int) (st : AnalysisState α) : α × AnalysisState α :=
  if force = false then
    match get_cached_analysis st.cache pid "sentiment" now with
    | some cached => (cached, st)
    | none => runStage stage pid now st
  else runStage stage pid now st

/-- A one-entry cache state, used as a concrete instance. -/
def stOne : AnalysisState Nat :=
  { cache := [⟨1, "sentiment", 42, 0⟩], runCount := 5 }

/-! ## Theorems -/

theorem runEvents_append (j : ScrapeJob) (a b : List JobEvent) :
    runEvents j (a ++ b) = runEvents (runEvents j a) b :=
  List.foldl_append _ _ _ _

theorem cancels_status (n : Nat) (j : ScrapeJob)
    (hc : j.status ≠ JobStatus.completed) (hf : j.status ≠ JobStatus.failed) :
    (runEvents j (cancels n)).status =
      if n = 0 then j.status else JobStatus.cancelled := by
  induction n generalizing j with
  | zero => rfl
  | succ m ih =>
      have hstep : runEvents j (cancels (m + 1)) =
          runEvents (applyEvent j JobEvent.cancel) (cancels m) := by
        simp [cancels, List.replicate_succ, runEvents]
      have hcanc : (applyEvent j JobEvent.cancel).status = JobStatus.cancelled := by
        simp only [applyEvent, cancel_scrape]
        rw [if_neg (by simp [hc, hf])]
      rw [hstep, ih _ (by rw [hcanc]; simp) (by rw [hcanc]; simp)]
      by_cases hm : m = 0 <;> simp [hm, hcanc]

/-- C1 (counterexample): the background driver's completion write is
unconditional, so a job cancelled while running is later set to
`completed`: replaying `[start, cancel, finishOk]` leaves the job
`cancelled` after the cancel but `completed` after the driver finishes. -/
theorem C1_counterexample :
    (runEvents (createJob "amazon") [JobEvent.start, JobEvent.cancel]).status
      = JobStatus.cancelled ∧
    (runEvents (createJob "amazon")
        [JobEvent.start, JobEvent.cancel, JobEvent.finishOk 1 10]).status
      = JobStatus.completed :=
  ⟨rfl, rfl⟩

/-- C1 (amended): for the driver's two steps in order, interleaved with any
numbers of cancellation requests, the status is `pending` (or `cancelled`)
before the driver starts, `running` (or `cancelled`) between start and
finish, and after the driver's finish step it is always `completed` or
`failed` according to the outcome — the finish write overwrites an
intervening cancellation. -/
theorem C1_amended_lifecycle (cb cm pid cnt : Nat) (err : String) (ok : Bool) :
    (runEvents (createJob "amazon") (cancels cb)).status
      = (if cb = 0 then JobStatus.pending else JobStatus.cancelled) ∧
    (runEvents (createJob "amazon") (cancels cb ++ [JobEvent.start] ++ cancels cm)).status
      = (if cm = 0 then JobStatus.running else JobStatus.cancelled) ∧
    (runEvents (createJob "amazon") (cancels cb ++ [JobEvent.start] ++ cancels cm ++
        [if ok then JobEvent.finishOk pid cnt else JobEvent.finishErr err])).status
      = (if ok then JobStatus.completed else JobStatus.failed) := by
  have hpend : (createJob "amazon").status = JobStatus.pending := rfl
  have h1 := cancels_status cb (createJob "amazon") (by rw [hpend]; simp) (by rw [hpend]; simp)
  refine ⟨by rw [h1, hpend], ?_, ?_⟩
  · rw [runEvents_append, runEvents_append]
    have hrun : (runEvents (runEvents (createJob "amazon") (cancels cb)) [JobEvent.start]).status
        = JobStatus.running := rfl
    rw [cancels_status cm _ (by rw [hrun]; simp) (by rw [hrun]; simp), hrun]
  · rw [runEvents_append]
    cases ok <;> simp [runEvents, applyEvent, driverComplete, driverFail]

/-- C2 (counterexample): `cancel_scrape` only rejects COMPLETED and FAILED,
so cancelling an already-cancelled job is accepted (and rewrites the
record) instead of failing with an invalid-state error. -/
theorem C2_counterexample :
    (cancel_scrape { createJob "amazon" with status := JobStatus.cancelled }).isOk = true :=
  rfl

/-- C2 (amended): `cancel_scrape` fails with the invalid-state error
exactly when the status is `completed` or `failed` (leaving the stored
record untouched); on every other status — `pending`, `running`, and also
an already-`cancelled` job — it succeeds and sets the status to
`cancelled`. -/
theorem C2_amended_cancel_guard (j : ScrapeJob) :
    ((cancel_scrape j).isOk = true ↔
        ¬(j.status = JobStatus.completed ∨ j.status = JobStatus.failed)) ∧
    (cancel_scrape j = Except.error "Job already finished" ∨
      cancel_scrape j = Except.ok { j with status := JobStatus.cancelled,
                                           hasCompletedAt := true,
                                           message := "Job cancelled by user" }) := by
  unfold cancel_scrape
  by_cases h : j.status = JobStatus.completed ∨ j.status = JobStatus.failed <;>
    simp [h, Except.isOk, Except.toBool]

theorem half_lt_div_iff (u m : Nat) :
    ((1 : ℚ) / 2 < (u : ℚ) / max (m : ℚ) 1) ↔ max m 1 < 2 * u := by
  have h1 : max (m : ℚ) 1 = ((max m 1 : ℕ) : ℚ) := by push_cast; rfl
  have hm : (0 : ℚ) < ((max m 1 : ℕ) : ℚ) := by
    exact_mod_cast Nat.lt_of_lt_of_le Nat.zero_lt_one (le_max_right _ _)
  rw [h1, div_lt_div_iff₀ (by norm_num) hm, one_mul, mul_comm]
  exact_mod_cast Iff.rfl

theorem calculate_suspicious_score_eq (r : Review) :
    calculate_suspicious_score r = suspiciousScoreNat r := by
  unfold calculate_suspicious_score suspiciousScoreNat
  simp only [half_lt_div_iff (upperCount r.review_text) r.review_text.length]

theorem calculate_suspicious_score_le (r : Review) :
    calculate_suspicious_score r ≤ 100 :=
  Nat.min_le_left _ _

/-- C3: after the fake-detection stage updates a review, its
`suspicious_score` lies in `[0, 100]` (it is a natural number clamped by
`min(100, ·)`) and `is_suspicious` holds exactly when the score is at
least 50. -/
theorem C3_suspicious_score_invariant (r : Review) :
    (applyFakeDetection r).suspicious_score ≤ 100 ∧
    ((applyFakeDetection r).is_suspicious = true ↔
      50 ≤ (applyFakeDetection r).suspicious_score) := by
  refine ⟨calculate_suspicious_score_le r, ?_⟩
  simp [applyFakeDetection]

/-- C8: the review with text `"bad"`, unverified, rating 1 scores exactly
65 = 30 (short + extreme rating) + 25 (unverified) + 10 (fewer than 5
words), hence at least 65, and is flagged suspicious. -/
theorem C8_bad_review_score :
    65 ≤ calculate_suspicious_score badReview ∧
    (applyFakeDetection badReview).is_suspicious = true := by
  have h : calculate_suspicious_score badReview = 65 := by
    rw [calculate_suspicious_score_eq]
    decide
  exact ⟨le_of_eq h.symm, by simp [applyFakeDetection, h]⟩

/-- C6 (counterexample): the batched classification path — the one
`analyze_product_sentiment` uses for reviews — has no empty-text bypass:
with a classifier oracle answering `("positive", 0.9)`, the empty text is
sent to the classifier and its answer is returned instead of the claimed
`("neutral", 0.5)`. -/
theorem C6_counterexample :
    analyze_texts_batch (fun batch => some (batch.map fun _ => ("positive", (9 : ℚ) / 10)))
        [""] 32 = [("positive", (9 : ℚ) / 10)] ∧
    analyze_texts_batch (fun batch => some (batch.map fun _ => ("positive", (9 : ℚ) / 10)))
        [""] 32 ≠ [("neutral", (1 : ℚ) / 2)] := by
  have h1 : analyze_texts_batch
      (fun batch => some (batch.map fun _ => ("positive", (9 : ℚ) / 10)))
      [""] 32 = [("positive", (9 : ℚ) / 10)] := rfl
  refine ⟨h1, ?_⟩
  rw [h1]
  intro hc
  have hs : "positive" = "neutral" := congrArg (·.1) (List.head_eq_of_cons_eq hc)
  simp at hs

/-- C6 (amended): the empty/near-empty-text bypass holds on the
single-text path: for every classifier oracle, `analyze_text` returns
`("neutral", 0.5)` without consulting the oracle whenever the text is
empty or strips to fewer than 3 characters.  The batched path
(`analyze_texts_batch`, used for reviews by `analyze_product_sentiment`)
has no such bypass and forwards those texts to the classifier. -/
theorem C6_amended_empty_text_neutral (pipe : String → Option (String × ℚ))
    (text : String) (h : text = "" ∨ (pyStrip text).length < 3) :
    analyze_text pipe text = ("neutral", 1 / 2) := by
  unfold analyze_text
  rcases h with h | h
  · rw [if_pos (by simp [h])]
  · rw [if_pos (by simp [h])]

theorem C6_amended_empty_text_neutral_witness :
    ("" = "" ∨ (pyStrip "").length < 3) ∧
      analyze_text (fun _ => some ("positive", 1)) "" = ("neutral", 1 / 2) :=
  ⟨Or.inl rfl, C6_amended_empty_text_neutral _ "" (Or.inl rfl)⟩

/-- C7 (counterexample): for a single positive review with confidence 0.6
and rating 5, the code's overall insights score is 100 (count-based
sentiment component), while the claim's signed-confidence formula gives
88 — the insights stage does not use the sentiment stage's
confidence-weighted formula. -/
theorem C7_counterexample :
    insightsOverallScore [confidentReview] = 100 ∧
    claimedOverallScore [confidentReview] = 88 ∧
    insightsOverallScore [confidentReview] ≠ claimedOverallScore [confidentReview] := by
  have h1 : insightsOverallScore [confidentReview] = 100 := by
    simp [insightsOverallScore, insightsAvgRating, totalAnalyzed, labeledCount,
      confidentReview]
    norm_num
  have h2 : claimedOverallScore [confidentReview] = 88 := by
    simp [claimedOverallScore, insightsAvgRating, confidentReview]
    norm_num
  exact ⟨h1, h2, by rw [h1, h2]; norm_num⟩

/-- C7 (amended): for a product with at least one sentiment-labeled
review, the insights overall score equals
`0.6 × sentiment_component + 0.4 × rating_component` with
`rating_component = avg_rating/5 × 100`, but the sentiment component is
computed from the *label counts*:
`((positive_count − negative_count)/total_labeled + 1)/2 × 100`, not from
signed confidence scores. -/
theorem C7_amended_overall_formula (reviews : List Review)
    (h : 0 < totalAnalyzed reviews) :
    insightsOverallScore reviews =
      (6 / 10) * ((((labeledCount reviews "positive" : ℚ) -
            (labeledCount reviews "negative" : ℚ)) / (totalAnalyzed reviews : ℚ) + 1)
          / 2 * 100) +
      (4 / 10) * (insightsAvgRating reviews / 5 * 100) := by
  simp only [insightsOverallScore, if_pos h, div_sub_div_same]
  ring

theorem appendStep_pairwise (maxReviews : Nat) (acc : List RawReview)
    (d : Option RawReview) (h : acc.Pairwise fun a b => a.text ≠ b.text) :
    (appendStep maxReviews acc d).Pairwise fun a b => a.text ≠ b.text := by
  unfold appendStep
  split
  · exact h
  · split
    · exact h
    · next r =>
        split
        · exact h
        · next hany =>
            rw [List.pairwise_append]
            refine ⟨h, List.pairwise_singleton _ _, ?_⟩
            intro a ha b hb
            rw [List.mem_singleton] at hb
            subst hb
            have hall := List.any_eq_false.mp (Bool.not_eq_true _ ▸ hany) a ha
            simpa using hall

theorem appendFresh_pairwise (maxReviews : Nat) (divs : List (Option RawReview))
    (acc : List RawReview) (h : acc.Pairwise fun a b => a.text ≠ b.text) :
    (appendFresh maxReviews acc divs).Pairwise fun a b => a.text ≠ b.text := by
  induction divs generalizing acc with
  | nil => exact h
  | cons d ds ih =>
      rw [appendFresh, List.foldl_cons]
      exact ih _ (appendStep_pairwise maxReviews acc d h)

theorem appendStep_length (maxReviews : Nat) (acc : List RawReview)
    (d : Option RawReview) (h : acc.length ≤ maxReviews) :
    (appendStep maxReviews acc d).length ≤ maxReviews := by
  unfold appendStep
  split
  · exact h
  · next hlt =>
      split
      · exact h
      · split
        · exact h
        · rw [List.length_append, List.length_singleton]
          omega

theorem appendFresh_length (maxReviews : Nat) (divs : List (Option RawReview))
    (acc : List RawReview) (h : acc.length ≤ maxReviews) :
    (appendFresh maxReviews acc divs).length ≤ maxReviews := by
  induction divs generalizing acc with
  | nil => exact h
  | cons d ds ih =>
      rw [appendFresh, List.foldl_cons]
      exact ih _ (appendStep_length maxReviews acc d h)

/-- The Amazon loop body either leaves the accumulated reviews unchanged
or replaces them by an `appendFresh` of some div list. -/
theorem amazonStep_reviews (fetches : Nat → AmazonFetch)
    (fallbackDivs : Nat → Option (List (Option RawReview)))
    (maxReviews : Nat) (s : ScrapeState) :
    (amazonStep fetches fallbackDivs maxReviews s).reviews = s.reviews ∨
    ∃ divs, (amazonStep fetches fallbackDivs maxReviews s).reviews =
      appendFresh maxReviews s.reviews divs := by
  unfold amazonStep
  dsimp only
  split
  · exact Or.inl rfl
  · split
    · split
      · exact Or.inl rfl
      · exact Or.inl rfl
    · split
      · exact Or.inl rfl
      · split
        · exact Or.inl rfl
        · split
          · split
            · exact Or.inl rfl
            · exact Or.inr ⟨_, rfl⟩
          · split
            · exact Or.inl rfl
            · exact Or.inr ⟨_, rfl⟩

/-- The Flipkart loop body likewise. -/
theorem flipkartStep_reviews (fetches : Nat → FlipkartFetch)
    (maxReviews : Nat) (s : ScrapeState) :
    (flipkartStep fetches maxReviews s).reviews = s.reviews ∨
    ∃ divs, (flipkartStep fetches maxReviews s).reviews =
      appendFresh maxReviews s.reviews divs := by
  unfold flipkartStep
  split
  · exact Or.inl rfl
  · dsimp only
    split
    · exact Or.inl rfl
    · split
      · exact Or.inl rfl
      · split
        · exact Or.inl rfl
        · exact Or.inr ⟨_, rfl⟩

theorem amazonRun_pairwise (fetches : Nat → AmazonFetch)
    (fallbackDivs : Nat → Option (List (Option RawReview)))
    (maxReviews : Nat) (fuel : Nat) (s : ScrapeState)
    (h : s.reviews.Pairwise fun a b => a.text ≠ b.text) :
    ((amazonRun fetches fallbackDivs maxReviews fuel s).reviews.Pairwise
      fun a b => a.text ≠ b.text) := by
  induction fuel generalizing s with
  | zero => exact h
  | succ n ih =>
      unfold amazonRun
      split
      · exact h
      · split
        · refine ih _ ?_
          rcases amazonStep_reviews fetches fallbackDivs maxReviews s with heq | ⟨divs, heq⟩
          · rw [heq]; exact h
          · rw [heq]; exact appendFresh_pairwise _ _ _ h
        · exact h

theorem flipkartRun_pairwise (fetches : Nat → FlipkartFetch)
    (maxReviews : Nat) (fuel : Nat) (s : ScrapeState)
    (h : s.reviews.Pairwise fun a b => a.text ≠ b.text) :
    ((flipkartRun fetches maxReviews fuel s).reviews.Pairwise
      fun a b => a.text ≠ b.text) := by
  induction fuel generalizing s with
  | zero => exact h
  | succ n ih =>
      unfold flipkartRun
      split
      · exact h
      · split
        · refine ih _ ?_
          rcases flipkartStep_reviews fetches maxReviews s with heq | ⟨divs, heq⟩
          · rw [heq]; exact h
          · rw [heq]; exact appendFresh_pairwise _ _ _ h
        · exact h

/-- C4: for every oracle, every `max_reviews` and every amount of fuel,
the review list returned by either scraper contains no two entries with
identical text — a parsed review is appended only if no accumulated
review has exactly equal text. -/
theorem C4_dedup_invariant (afetch : Nat → AmazonFetch)
    (afall : Nat → Option (List (Option RawReview)))
    (ffetch : Nat → FlipkartFetch) (amax fmax afuel ffuel : Nat) :
    ((amazonScrape afetch afall amax afuel).reviews.Pairwise
      fun a b => a.text ≠ b.text) ∧
    ((flipkartScrape ffetch fmax ffuel).reviews.Pairwise
      fun a b => a.text ≠ b.text) :=
  ⟨amazonRun_pairwise _ _ _ _ _ (List.Pairwise.nil),
   flipkartRun_pairwise _ _ _ _ (List.Pairwise.nil)⟩

theorem amazonRun_length (fetches : Nat → AmazonFetch)
    (fallbackDivs : Nat → Option (List (Option RawReview)))
    (maxReviews : Nat) (fuel : Nat) (s : ScrapeState)
    (h : s.reviews.length ≤ maxReviews) :
    (amazonRun fetches fallbackDivs maxReviews fuel s).reviews.length ≤ maxReviews := by
  induction fuel generalizing s with
  | zero => exact h
  | succ n ih =>
      unfold amazonRun
      split
      · exact h
      · split
        · refine ih _ ?_
          rcases amazonStep_reviews fetches fallbackDivs maxReviews s with heq | ⟨divs, heq⟩
          · rw [heq]; exact h
          · rw [heq]; exact appendFresh_length _ _ _ h
        · exact h

theorem flipkartRun_length (fetches : Nat → FlipkartFetch)
    (maxReviews : Nat) (fuel : Nat) (s : ScrapeState)
    (h : s.reviews.length ≤ maxReviews) :
    (flipkartRun fetches maxReviews fuel s).reviews.length ≤ maxReviews := by
  induction fuel generalizing s with
  | zero => exact h
  | succ n ih =>
      unfold flipkartRun
      split
      · exact h
      · split
        · refine ih _ ?_
          rcases flipkartStep_reviews fetches maxReviews s with heq | ⟨divs, heq⟩
          · rw [heq]; exact h
          · rw [heq]; exact appendFresh_length _ _ _ h
        · exact h

/-- C10: for every oracle, every `max_reviews` and every amount of fuel,
the review list returned by either scraper has length at most
`max_reviews`: the per-page append loop stops adding once the accumulated
count reaches the maximum. -/
theorem C10_max_reviews_bound (afetch : Nat → AmazonFetch)
    (afall : Nat → Option (List (Option RawReview)))
    (ffetch : Nat → FlipkartFetch) (amax fmax afuel ffuel : Nat) :
    (amazonScrape afetch afall amax afuel).reviews.length ≤ amax ∧
    (flipkartScrape ffetch fmax ffuel).reviews.length ≤ fmax :=
  ⟨amazonRun_length _ _ _ _ _ (Nat.zero_le _),
   flipkartRun_length _ _ _ _ (Nat.zero_le _)⟩

/-- The Flipkart loop body records a fetched page only when the page index
is within the ceiling. -/
theorem flipkartStep_pages (fetches : Nat → FlipkartFetch)
    (maxReviews : Nat) (s : ScrapeState) :
    (flipkartStep fetches maxReviews s).fetchedPages = s.fetchedPages ∨
    ((flipkartStep fetches maxReviews s).fetchedPages = s.fetchedPages ++ [s.page] ∧
      s.page ≤ flipkartMaxPages) := by
  unfold flipkartStep
  split
  · exact Or.inl rfl
  · next hle =>
      have hp : s.page ≤ flipkartMaxPages := Nat.le_of_not_lt hle
      dsimp only
      split
      · exact Or.inr ⟨rfl, hp⟩
      · split
        · exact Or.inr ⟨rfl, hp⟩
        · split
          · exact Or.inr ⟨rfl, hp⟩
          · exact Or.inr ⟨rfl, hp⟩

theorem flipkartRun_pages (fetches : Nat → FlipkartFetch)
    (maxReviews : Nat) (fuel : Nat) (s : ScrapeState)
    (h : s.fetchedPages.all (fun p => decide (p ≤ flipkartMaxPages)) = true) :
    (flipkartRun fetches maxReviews fuel s).fetchedPages.all
      (fun p => decide (p ≤ flipkartMaxPages)) = true := by
  induction fuel generalizing s with
  | zero => exact h
  | succ n ih =>
      unfold flipkartRun
      split
      · exact h
      · split
        · refine ih _ ?_
          rcases flipkartStep_pages fetches maxReviews s with heq | ⟨heq, hp⟩
          · rw [heq]; exact h
          · rw [heq, List.all_append]
            simp [h, hp]
        · exact h

/-- C5 (counterexample): the Amazon loop has no page ceiling.  With an
oracle returning one fresh review per page and `max_reviews = 50`, after
26 iterations the loop has fetched page 26. -/
theorem C5_counterexample :
    ((amazonScrape alwaysOnePage (fun _ => none) 50 26).fetchedPages.contains 26) = true := by
  decide

/-- C5 (amended): the Flipkart scraper never fetches a page with index
greater than the hard ceiling of 25 (`if page > max_pages: break` runs
before the fetch); both loops otherwise continue only while
`reviews < max_reviews`, `consecutive_empty < 3` and
`consecutive_errors < 5`.  The Amazon scraper has no page ceiling. -/
theorem C5_amended_flipkart_page_ceiling (fetches : Nat → FlipkartFetch)
    (maxReviews fuel : Nat) :
    (flipkartScrape fetches maxReviews fuel).fetchedPages.all
      (fun p => decide (p ≤ flipkartMaxPages)) = true :=
  flipkartRun_pages _ _ _ _ rfl

theorem C7_amended_overall_formula_witness :
    0 < totalAnalyzed [confidentReview] ∧
    insightsOverallScore [confidentReview] =
      (6 / 10) * ((((labeledCount [confidentReview] "positive" : ℚ) -
            (labeledCount [confidentReview] "negative" : ℚ))
          / (totalAnalyzed [confidentReview] : ℚ) + 1) / 2 * 100) +
      (4 / 10) * (insightsAvgRating [confidentReview] / 5 * 100) :=
  ⟨by decide, C7_amended_overall_formula [confidentReview] (by decide)⟩

theorem foldl_pickNewer_keep {α : Type} (l : List (CacheEntry α)) (b : CacheEntry α)
    (h : ∀ e' ∈ l, e' = b ∨ e'.created_at < b.created_at) :
    l.foldl pickNewer (some b) = some b := by
  induction l with
  | nil => rfl
  | cons x xs ih =>
      rw [List.foldl_cons]
      have hpick : pickNewer (some b) x = some b := by
        rcases h x (by simp) with hx | hx
        · subst hx; simp [pickNewer]
        · simp [pickNewer, not_le.mpr hx]
      rw [hpick]
      exact ih fun e' he' => h e' (by simp [he'])

theorem foldl_pickNewer_max {α : Type} (l : List (CacheEntry α)) (e : CacheEntry α)
    (he : e ∈ l) (h : ∀ e' ∈ l, e' = e ∨ e'.created_at < e.created_at) :
    ∀ b : CacheEntry α, b.created_at < e.created_at →
      l.foldl pickNewer (some b) = some e := by
  induction l with
  | nil => cases he
  | cons x xs ih =>
      intro b hb
      rw [List.foldl_cons]
      rcases h x (by simp) with hx | hx
      · subst hx
        rw [show pickNewer (some b) x = some x from by simp [pickNewer, le_of_lt hb]]
        exact foldl_pickNewer_keep xs x fun e' he' => h e' (by simp [he'])
      · have hex : e ∈ xs := by
          rcases List.mem_cons.mp he with h1 | h1
          · exact absurd (h1 ▸ hx) (lt_irrefl _)
          · exact h1
        have hxs : ∀ e' ∈ xs, e' = e ∨ e'.created_at < e.created_at :=
          fun e' he' => h e' (by simp [he'])
        by_cases hbx : b.created_at ≤ x.created_at
        · rw [show pickNewer (some b) x = some x from by simp [pickNewer, hbx]]
          exact ih hex hxs x hx
        · rw [show pickNewer (some b) x = some b from by simp [pickNewer, hbx]]
          exact ih hex hxs b hb

theorem foldl_pickNewer_mem {α : Type} (l : List (CacheEntry α)) :
    ∀ acc : Option (CacheEntry α),
      l.foldl pickNewer acc = acc ∨ ∃ c ∈ l, l.foldl pickNewer acc = some c := by
  induction l with
  | nil => intro acc; exact Or.inl rfl
  | cons x xs ih =>
      intro acc
      rw [List.foldl_cons]
      rcases ih (pickNewer acc x) with h | ⟨c, hc, h⟩
      · cases acc with
        | none => exact Or.inr ⟨x, by simp, by rw [h]; rfl⟩
        | some b =>
            by_cases hbx : b.created_at ≤ x.created_at
            · exact Or.inr ⟨x, by simp, by rw [h]; simp [pickNewer, hbx]⟩
            · exact Or.inl (by rw [h]; simp [pickNewer, hbx])
      · exact Or.inr ⟨c, by simp [hc], h⟩

/-- Appending an entry at least as new as every existing entry makes it
the newest match. -/
theorem newestMatch_append {α : Type} (cache : List (CacheEntry α)) (pid : Nat)
    (typ : String) (e : CacheEntry α)
    (hpid : e.product_id = pid) (htyp : e.analysis_type = typ)
    (hle : ∀ e' ∈ cache, e'.created_at ≤ e.created_at) :
    newestMatch (cache ++ [e]) pid typ = some e := by
  unfold newestMatch
  rw [List.filter_append,
    show (List.filter (fun x => decide (x.product_id = pid ∧ x.analysis_type = typ)) [e])
        = [e] from by simp [hpid, htyp],
    List.foldl_append]
  rcases foldl_pickNewer_mem
      (List.filter (fun x => decide (x.product_id = pid ∧ x.analysis_type = typ)) cache)
      none with h | ⟨c, hc, h⟩
  · rw [h]; rfl
  · rw [h]
    have hcle : c.created_at ≤ e.created_at := hle c (List.mem_of_mem_filter hc)
    simp [pickNewer, List.foldl_cons, hcle]

/-- C9: with `force_refresh = false`, (i) a cache hit returns the cached
payload with the whole state — in particular the stage-run counter —
unchanged; (ii) the lookup returns the payload of the strictly most
recently created matching entry whenever it is less than 24 hours old;
(iii) if the first call misses the cache, a second call within 24 hours
returns exactly the payload the first call returned and cached, again
leaving the state (and run counter) unchanged — the stage and classifier
are not re-invoked. -/
theorem C9_cache_freshness {α : Type} (stage : Nat → α) (pid : Nat)
    (now now₁ now₂ : Int) (st : AnalysisState α) (p : α) (e : CacheEntry α) :
    (get_cached_analysis st.cache pid "sentiment" now = some p →
      get_sentiment_analysis stage pid false now st = (p, st)) ∧
    (e ∈ st.cache → e.product_id = pid → e.analysis_type = "sentiment" →
      (∀ e' ∈ st.cache, (e'.product_id = pid ∧ e'.analysis_type = "sentiment") →
        e' = e ∨ e'.created_at < e.created_at) →
      now - e.created_at < 86400 →
      get_cached_analysis st.cache pid "sentiment" now = some e.results) ∧
    (get_cached_analysis st.cache pid "sentiment" now₁ = none →
      (∀ e' ∈ st.cache, e'.created_at ≤ now₁) → now₁ ≤ now₂ → now₂ - now₁ < 86400 →
      get_sentiment_analysis stage pid false now₂
          (get_sentiment_analysis stage pid false now₁ st).2 =
        ((get_sentiment_analysis stage pid false now₁ st).1,
         (get_sentiment_analysis stage pid false now₁ st).2)) := by
  refine ⟨?_, ?_, ?_⟩
  · intro hlook
    unfold get_sentiment_analysis
    rw [if_pos rfl, hlook]
  · intro hmem hpid htyp hnewest hfresh
    unfold get_cached_analysis
    have hfil : e ∈ st.cache.filter
        (fun x => decide (x.product_id = pid ∧ x.analysis_type = "sentiment")) := by
      rw [List.mem_filter]
      exact ⟨hmem, by simp [hpid, htyp]⟩
    have hnewest' : ∀ e' ∈ st.cache.filter
        (fun x => decide (x.product_id = pid ∧ x.analysis_type = "sentiment")),
        e' = e ∨ e'.created_at < e.created_at := by
      intro e' he'
      rw [List.mem_filter] at he'
      exact hnewest e' he'.1 (by simpa using he'.2)
    have hnm : newestMatch st.cache pid "sentiment" = some e := by
      unfold newestMatch
      cases hfl : st.cache.filter
          (fun x => decide (x.product_id = pid ∧ x.analysis_type = "sentiment")) with
      | nil => rw [hfl] at hfil; cases hfil
      | cons x xs =>
          rw [hfl] at hfil hnewest'
          rw [List.foldl_cons]
          show List.foldl pickNewer (some x) xs = some e
          rcases hnewest' x (by simp) with hx | hx
          · subst hx
            exact foldl_pickNewer_keep xs x fun e' he' => hnewest' e' (by simp [he'])
          · have hex : e ∈ xs := by
              rcases List.mem_cons.mp hfil with h1 | h1
              · exact absurd (h1 ▸ hx) (lt_irrefl _)
              · exact h1
            exact foldl_pickNewer_max xs e hex
              (fun e' he' => hnewest' e' (by simp [he'])) x hx
    rw [hnm]
    dsimp only
    rw [if_pos hfresh]
  · intro hmiss hentries h12 hwin
    have hfirst : get_sentiment_analysis stage pid false now₁ st =
        (stage st.runCount,
         { cache := st.cache ++ [⟨pid, "sentiment", stage st.runCount, now₁⟩],
           runCount := st.runCount + 1 }) := by
      unfold get_sentiment_analysis
      rw [if_pos rfl, hmiss]
      rfl
    rw [hfirst]
    have hlook2 : get_cached_analysis
        (st.cache ++ [⟨pid, "sentiment", stage st.runCount, now₁⟩]) pid "sentiment" now₂ =
        some (stage st.runCount) := by
      unfold get_cached_analysis
      rw [newestMatch_append st.cache pid "sentiment" _ rfl rfl hentries]
      dsimp only
      rw [if_pos hwin]
    unfold get_sentiment_analysis
    rw [if_pos rfl]
    dsimp only
    rw [hlook2]

theorem C9_cache_freshness_witness :
    (get_sentiment_analysis (fun n => n) 1 false 10 stOne = (42, stOne)) ∧
    (get_cached_analysis stOne.cache 1 "sentiment" 10 = some 42) ∧
    (get_sentiment_analysis (fun n => n) 1 false 10
        (get_sentiment_analysis (fun n => n) 1 false 0
          ({ cache := [], runCount := 0 } : AnalysisState Nat)).2 =
      ((get_sentiment_analysis (fun n => n) 1 false 0
          ({ cache := [], runCount := 0 } : AnalysisState Nat)).1,
       (get_sentiment_analysis (fun n => n) 1 false 0
          ({ cache := [], runCount := 0 } : AnalysisState Nat)).2)) :=
  ⟨(C9_cache_freshness (fun n => n) 1 10 0 10 stOne 42 ⟨1, "sentiment", 42, 0⟩).1 rfl,
   (C9_cache_freshness (fun n => n) 1 10 0 10 stOne 42 ⟨1, "sentiment", 42, 0⟩).2.1
     (by simp [stOne]) rfl rfl
     (by intro e' he' _; left; simpa [stOne] using he')
     (by norm_num),
   (C9_cache_freshness (fun n => n) 1 0 0 10 { cache := [], runCount := 0 } 0
      ⟨1, "sentiment", 0, 0⟩).2.2 rfl (by simp) (by norm_num) (by norm_num)⟩

end App
